import Mathlib

/-!
Shallow embedding of `src/controllers/authentication.js` from the
creative-arts-api repository: the Credential & Session Handler.

The user store, password hashing/comparison, token signing, the reset-token
generator and the mail transport are external collaborators (spec §1); they
enter the model as function parameters bundled in `Ext`, or as explicit
inputs (`freshToken`, `tokenExpire`, `emailOk`). Each Express handler
becomes a pure function from the pre-state and request fields to an
`HResult` recording the post-state of the store, the sequence of errors
passed to `next`, the response sent (if any), the email sends attempted,
and whether the store was consulted.
-/

namespace AuthApi

/-- User record as stored by the external store (spec §3).  `password` holds
the stored hash (hashing happens in the store layer on save/create). -/
structure UserRec where
  uid : Nat
  name : String
  email : String
  password : String
  role : Option String
  passwordResetToken : Option String
  passwordResetExpire : Option Nat
  deriving Repr, DecidableEq

/-- The user store: a list of user records. -/
abbrev Store := List UserRec

/-- Mongoose-style `User.findOne({ email })`: first record with that email. -/
def findOneByEmail (s : Store) (e : String) : Option UserRec :=
  List.find? (fun u => u.email == e) s

/-- Test for `passwordResetExpire: { $gt: now }`: the stored expiry is
strictly after `now`.  A record with no expiry set never passes. -/
def resetNotExpired (now : Nat) (u : UserRec) : Bool :=
  match u.passwordResetExpire with
  | some t => now < t
  | none => false

/-- Mongoose-style `User.findOne({ passwordResetToken, passwordResetExpire: { $gt: now } })`:
first record whose stored reset-token hash equals `h` and whose expiry is
strictly after `now`. -/
def findOneByResetToken (s : Store) (h : String) (now : Nat) : Option UserRec :=
  List.find? (fun u => u.passwordResetToken == some h && resetNotExpired now u) s

/-- Mongoose-style `User.findById`. -/
def findById (s : Store) (i : Nat) : Option UserRec :=
  List.find? (fun u => u.uid == i) s

/-- Persisting a modified document (`user.save()`): every record with the
document's id is replaced by the new version. -/
def saveUser (s : Store) (u : UserRec) : Store :=
  List.map (fun v => if v.uid == u.uid then u else v) s

/-- Error object handed to `next`; the status code is optional because the
`ErrorResponse` constructor can be called with the message alone. -/
structure ErrorResponse where
  message : String
  statusCode : Option Nat
  deriving Repr, DecidableEq

/-- AuthError per the spec's error taxonomy (§7): a status-coded failure
with code 401 or 404, for bad credentials or token. -/
def isAuthError (e : ErrorResponse) : Prop :=
  e.statusCode = some 401 ∨ e.statusCode = some 404

/-- What a handler can pass to `next`: an explicit `ErrorResponse`, a runtime
exception (e.g. a null dereference) caught by `asyncHandler`, or a store
error (e.g. duplicate-key on create) likewise caught by `asyncHandler`. -/
inductive NextErr where
  | errResp (e : ErrorResponse)
  | typeError
  | dbError
  deriving Repr, DecidableEq

/-- Observable content of `sendTokenResponse`: status, the `token` cookie
with its options, and the JSON body `{ success: true, token }` (the cookie
value and the body token are the same signed token). -/
structure TokenResponse where
  status : Nat
  cookieName : String
  token : String
  cookieExpires : Nat
  httpOnly : Bool
  secure : Bool
  bodySuccess : Bool
  deriving Repr, DecidableEq

/-- A response sent by a handler: either a `{ success: true, data }` JSON
payload or a token response. -/
inductive RespBody where
  | dataMsg (status : Nat) (payload : String)
  | tokenOut (t : TokenResponse)
  deriving Repr, DecidableEq

/-- Observable outcome of one handler invocation. -/
structure HResult where
  store : Store
  nexts : List NextErr
  resp : Option RespBody
  emailAttempts : List String
  lookedUp : Bool
  deriving Repr, DecidableEq

/-- External collaborators: the SHA-256 hex digest used on reset tokens, the
store's password comparison (`matchPassword plaintext storedHash`), the
store's password hashing on save, and JWT signing from the user id. -/
structure Ext where
  sha256Hex : String → String
  matchPassword : String → String → Bool
  pwHash : String → String
  sign : Nat → String

/-- Ambient process configuration consumed by the handlers. -/
structure Cfg where
  now : Nat
  jwtCookieExpire : Nat
  nodeEnv : String

/-- JavaScript truthiness of an optional string request field: present and
non-empty. -/
def truthy : Option String → Bool
  | some s => !(s == "")
  | none => false

/-- Embedding of `sendTokenResponse`: sign a token from the user, build the
cookie options (expiry `JWT_COOKIE_EXPIRE` days from now, HTTP-only, and
secure exactly in production), and send `{ success: true, token }`. -/
def sendTokenResponse (ext : Ext) (cfg : Cfg) (u : UserRec) (statusCode : Nat) :
    TokenResponse :=
  { status := statusCode
    cookieName := "token"
    token := ext.sign u.uid
    cookieExpires := cfg.now + cfg.jwtCookieExpire * 24 * 60 * 60 * 1000
    httpOnly := true
    secure := cfg.nodeEnv == "production"
    bodySuccess := true }

/-- Fields of the register request body. -/
structure RegisterBody where
  name : String
  email : String
  password : String
  role : Option String
  deriving Repr, DecidableEq

/-- Arguments the register handler passes to `User.create`: exactly the four
destructured body fields, unmodified. -/
structure CreateArgs where
  name : String
  email : String
  password : String
  role : Option String
  deriving Repr, DecidableEq

/-- The argument object `register` builds for `User.create`. -/
def registerCreateArgs (body : RegisterBody) : CreateArgs :=
  { name := body.name
    email := body.email
    password := body.password
    role := body.role }

/-- External store `User.create`: rejects a duplicate email (unique index),
otherwise hashes the password and prepends the new record, whose reset
fields start unset. -/
def createUser (ext : Ext) (s : Store) (newId : Nat) (args : CreateArgs) :
    Option (UserRec × Store) :=
  match findOneByEmail s args.email with
  | some _ => none
  | none =>
      let u : UserRec :=
        { uid := newId
          name := args.name
          email := args.email
          password := ext.pwHash args.password
          role := args.role
          passwordResetToken := none
          passwordResetExpire := none }
      some (u, u :: s)

/-- Embedding of `exports.register`: destructure the body, call
`User.create`, and on success issue a session token.  A store rejection
surfaces through `asyncHandler` as an error passed to `next`. -/
def register (ext : Ext) (cfg : Cfg) (s : Store) (newId : Nat)
    (body : RegisterBody) : HResult :=
  match createUser ext s newId (registerCreateArgs body) with
  | none =>
      { store := s, nexts := [.dbError], resp := none
        emailAttempts := [], lookedUp := true }
  | some (u, s1) =>
      { store := s1, nexts := []
        resp := some (.tokenOut (sendTokenResponse ext cfg u 200))
        emailAttempts := [], lookedUp := true }

/-- Embedding of `exports.login`: if either field is falsy, fail before any
store lookup with a status-less error; otherwise look the user up by email,
fail with the generic 401 if absent or if the password does not match, and
on success issue a session token. -/
def login (ext : Ext) (cfg : Cfg) (s : Store)
    (email password : Option String) : HResult :=
  if !(truthy email) || !(truthy password) then
    { store := s
      nexts := [.errResp ⟨"Please provide both email and password", none⟩]
      resp := none, emailAttempts := [], lookedUp := false }
  else
    match findOneByEmail s (email.getD "") with
    | none =>
        { store := s
          nexts := [.errResp ⟨"Invalid credentials", some 401⟩]
          resp := none, emailAttempts := [], lookedUp := true }
    | some u =>
        if ext.matchPassword (password.getD "") u.password then
          { store := s, nexts := []
            resp := some (.tokenOut (sendTokenResponse ext cfg u 200))
            emailAttempts := [], lookedUp := true }
        else
          { store := s
            nexts := [.errResp ⟨"Invalid credentials", some 401⟩]
            resp := none, emailAttempts := [], lookedUp := true }

/-- Embedding of `exports.getMe`: returns the request's user, touching
nothing. -/
def getMe (s : Store) (reqUser : UserRec) : HResult :=
  { store := s, nexts := []
    resp := some (.dataMsg 200 reqUser.name)
    emailAttempts := [], lookedUp := false }

/-- Embedding of `exports.logout`: clears the cookie, no store change. -/
def logout (s : Store) : HResult :=
  { store := s, nexts := []
    resp := some (.dataMsg 200 "")
    emailAttempts := [], lookedUp := false }

/-- Modelled from the spec: `user.getResetPasswordToken()` lives in
`models/User.js`, outside `src/`.  Per spec §3/§4 it generates a single-use
reset secret (`freshToken`, an input here), stores its one-way-digest hash
in `passwordResetToken` and a future expiry (`tokenExpire`) in
`passwordResetExpire`, overwriting any prior pair, and returns the
plaintext. -/
def getResetPasswordToken (ext : Ext) (u : UserRec)
    (freshToken : String) (tokenExpire : Nat) : UserRec :=
  { u with
    passwordResetToken := some (ext.sha256Hex freshToken)
    passwordResetExpire := some tokenExpire }

/-- Embedding of `exports.forgotPassword`: look the user up by email and
fail 404 if absent; otherwise set the reset-token hash and expiry, persist
(skipping validation), and attempt the email send (`emailOk`).  On send
failure, clear both reset fields, persist again, and fail 500; on success
respond `{ success: true, data: 'Email sent' }`. -/
def forgotPassword (ext : Ext) (s : Store) (reqEmail : String)
    (freshToken : String) (tokenExpire : Nat) (emailOk : Bool) : HResult :=
  match findOneByEmail s reqEmail with
  | none =>
      { store := s
        nexts := [.errResp ⟨"No user exists with that email", some 404⟩]
        resp := none, emailAttempts := [], lookedUp := true }
  | some u =>
      let u1 := getResetPasswordToken ext u freshToken tokenExpire
      let s1 := saveUser s u1
      if emailOk then
        { store := s1, nexts := []
          resp := some (.dataMsg 200 "Email sent")
          emailAttempts := [u1.email], lookedUp := true }
      else
        let u2 := { u1 with passwordResetToken := none, passwordResetExpire := none }
        { store := saveUser s1 u2
          nexts := [.errResp ⟨"Email could not be sent", some 500⟩]
          resp := none, emailAttempts := [u1.email], lookedUp := true }

/-- Embedding of `exports.resetPassword`: hash the presented token and look
up a user with that stored hash and an unexpired window.  The not-found
branch calls `next` with the 400 error but does not return, so execution
falls through and dereferences the null user; `asyncHandler` catches the
resulting exception and passes it to `next` as well.  On a match, set the
new password (hashed by the store on save), clear both reset fields,
persist, and issue a session token. -/
def resetPassword (ext : Ext) (cfg : Cfg) (s : Store)
    (resettoken newPassword : String) : HResult :=
  let hashed := ext.sha256Hex resettoken
  match findOneByResetToken s hashed cfg.now with
  | none =>
      { store := s
        nexts := [.errResp ⟨"Invalid token", some 400⟩, .typeError]
        resp := none, emailAttempts := [], lookedUp := true }
  | some u =>
      let u1 := { u with
        password := ext.pwHash newPassword
        passwordResetToken := none
        passwordResetExpire := none }
      { store := saveUser s u1, nexts := []
        resp := some (.tokenOut (sendTokenResponse ext cfg u1 200))
        emailAttempts := [], lookedUp := true }

/-- Embedding of `exports.updateDetails`: `findByIdAndUpdate` overwrites
name and email on the caller's record and returns the updated record (or
null when the id matches nothing). -/
def updateDetails (s : Store) (userId : Nat)
    (newName newEmail : String) : HResult :=
  match findById s userId with
  | none =>
      { store := s, nexts := []
        resp := some (.dataMsg 200 "null")
        emailAttempts := [], lookedUp := true }
  | some u =>
      let u1 := { u with name := newName, email := newEmail }
      { store := saveUser s u1, nexts := []
        resp := some (.dataMsg 200 u1.name)
        emailAttempts := [], lookedUp := true }

/-- Embedding of `exports.updatePassword`: fetch the caller's record with
the hash, fail 404 if the presented current password does not match,
otherwise set the new password (hashed by the store on save), persist, and
issue a refreshed session token.  A missing record makes `matchPassword`
throw on null, surfacing through `asyncHandler`. -/
def updatePassword (ext : Ext) (cfg : Cfg) (s : Store) (userId : Nat)
    (currentPassword newPassword : String) : HResult :=
  match findById s userId with
  | none =>
      { store := s, nexts := [.typeError]
        resp := none, emailAttempts := [], lookedUp := true }
  | some u =>
      if !(ext.matchPassword currentPassword u.password) then
        { store := s
          nexts := [.errResp ⟨"Password is incorrect", some 404⟩]
          resp := none, emailAttempts := [], lookedUp := true }
      else
        let u1 := { u with password := ext.pwHash newPassword }
        { store := saveUser s u1, nexts := []
          resp := some (.tokenOut (sendTokenResponse ext cfg u1 200))
          emailAttempts := [], lookedUp := true }

/-! Concrete instantiations of the external collaborators, used to evaluate
the handlers on closed inputs. -/

/-- Concrete stand-in for the external functions: an injective tagging digest
and a matching verifier. -/
def wExt : Ext where
  sha256Hex := fun s => "h:" ++ s
  matchPassword := fun p h => h == "h:" ++ p
  pwHash := fun p => "h:" ++ p
  sign := fun n => "jwt" ++ toString n

/-- Concrete configuration: clock at 100, 30-day cookie window, development
environment. -/
def wCfg : Cfg := { now := 100, jwtCookieExpire := 30, nodeEnv := "development" }

/-- Concrete user whose reset token expired at time 50. -/
def alice : UserRec :=
  { uid := 1, name := "Alice", email := "a@x.com", password := "h:pw123"
    role := some "user"
    passwordResetToken := some "h:tok1", passwordResetExpire := some 50 }

/-- Concrete created user for the register witness. -/
def bob : UserRec :=
  { uid := 5, name := "Bob", email := "b@x.com", password := "h:pw"
    role := some "publisher", passwordResetToken := none
    passwordResetExpire := none }

/-- Concrete user with a reset token valid until time 200. -/
def carol : UserRec :=
  { uid := 2, name := "Carol", email := "c@x.com", password := "h:pwc"
    role := some "user"
    passwordResetToken := some "h:tok2", passwordResetExpire := some 200 }

/-- The cookie/body shape every session-token issuance must have (spec §4,
§6): body `success` flag set, cookie named `token`, HTTP-only, secure
exactly in production, expiring `JWT_COOKIE_EXPIRE` days after issuance. -/
def goodTokenResp (cfg : Cfg) (t : TokenResponse) : Prop :=
  t.bodySuccess = true ∧
  t.cookieName = "token" ∧
  t.httpOnly = true ∧
  (t.secure = true ↔ cfg.nodeEnv = "production") ∧
  t.cookieExpires = cfg.now + cfg.jwtCookieExpire * 24 * 60 * 60 * 1000

/-- Freshness half of the data-model invariant: any set expiry lies strictly
in the future (an unset expiry is vacuously fine). -/
def resetExpireOk (now : Nat) (u : UserRec) : Bool :=
  match u.passwordResetExpire with
  | some t => now < t
  | none => true

/-- User-record invariant (spec §3): the reset-token hash and its expiry are
set or unset together, and a set expiry is strictly in the future. -/
def userInv (now : Nat) (u : UserRec) : Prop :=
  (u.passwordResetToken = none ↔ u.passwordResetExpire = none) ∧
  resetExpireOk now u = true

/-- Store-wide invariant: every record satisfies `userInv`. -/
def storeInv (now : Nat) (s : Store) : Prop := ∀ u ∈ s, userInv now u

instance (now : Nat) (u : UserRec) : Decidable (userInv now u) := by
  unfold userInv
  infer_instance

instance (now : Nat) (s : Store) : Decidable (storeInv now s) := by
  unfold storeInv
  infer_instance

/-! Helper lemmas shared between the claim theorems. -/

theorem findOneByResetToken_none (s : Store) (h : String) (now : Nat)
    (hno : ∀ u ∈ s, ¬(u.passwordResetToken = some h ∧ resetNotExpired now u = true)) :
    findOneByResetToken s h now = none := by
  rw [findOneByResetToken, List.find?_eq_none]
  intro u hu
  simp only [Bool.and_eq_true, beq_iff_eq]
  intro hc
  exact hno u hu ⟨hc.1, hc.2⟩

theorem saveUser_saveUser (s : Store) (u1 u2 : UserRec) (h : u1.uid = u2.uid) :
    saveUser (saveUser s u1) u2 = saveUser s u2 := by
  unfold saveUser
  rw [List.map_map]
  apply List.map_congr_left
  intro v _
  simp only [Function.comp_apply]
  by_cases hv : (v.uid == u1.uid) = true
  · have hv' : v.uid = u1.uid := by simpa using hv
    simp [hv, hv', h]
  · have hv' : ¬ v.uid = u1.uid := by simpa using hv
    simp [hv]

theorem saveUser_mem_uid (s : Store) (u v : UserRec) (hv : v ∈ saveUser s u)
    (huid : v.uid = u.uid) : v = u := by
  unfold saveUser at hv
  rcases List.mem_map.mp hv with ⟨w, _, hw⟩
  by_cases h : (w.uid == u.uid) = true
  · rw [if_pos h] at hw
    exact hw.symm
  · rw [if_neg h] at hw
    subst hw
    exact absurd (by simpa using huid) h

theorem resetPassword_not_found (ext : Ext) (cfg : Cfg) (s : Store)
    (tok npw : String)
    (h : findOneByResetToken s (ext.sha256Hex tok) cfg.now = none) :
    resetPassword ext cfg s tok npw =
      { store := s
        nexts := [.errResp ⟨"Invalid token", some 400⟩, .typeError]
        resp := none, emailAttempts := [], lookedUp := true } := by
  rw [resetPassword, h]

theorem storeInv_saveUser (now : Nat) (s : Store) (u : UserRec)
    (hs : storeInv now s) (hu : userInv now u) : storeInv now (saveUser s u) := by
  intro v hv
  unfold saveUser at hv
  rcases List.mem_map.mp hv with ⟨w, hw, hwe⟩
  by_cases h : (w.uid == u.uid) = true
  · rw [if_pos h] at hwe
    rw [← hwe]
    exact hu
  · rw [if_neg h] at hwe
    rw [← hwe]
    exact hs w hw

theorem goodTokenResp_sendTokenResponse (ext : Ext) (cfg : Cfg)
    (u : UserRec) (c : Nat) : goodTokenResp cfg (sendTokenResponse ext cfg u c) := by
  unfold goodTokenResp sendTokenResponse
  refine ⟨rfl, rfl, rfl, ?_, rfl⟩
  exact beq_iff_eq

/-! Claim theorems. -/

/-- Claim C1: when no stored user record pairs the digest of the presented
reset token with an expiry strictly in the future, `resetPassword` fails —
the first error passed to `next` is the handler's invalid-token error
(status 400), no response is sent, hence no session token is issued — and
the store is unchanged. -/
theorem resetPassword_no_valid_token_fails (ext : Ext) (cfg : Cfg) (s : Store)
    (tok newPw : String)
    (hno : ∀ u ∈ s, ¬(u.passwordResetToken = some (ext.sha256Hex tok) ∧
        resetNotExpired cfg.now u = true)) :
    resetPassword ext cfg s tok newPw =
      { store := s
        nexts := [.errResp ⟨"Invalid token", some 400⟩, .typeError]
        resp := none, emailAttempts := [], lookedUp := true } := by
  rw [resetPassword]
  rw [findOneByResetToken_none s (ext.sha256Hex tok) cfg.now hno]

/-- Claim C1 witness: against a store holding only a user whose reset token
expired at time 50, presenting that token at time 100 fails without
mutation. -/
theorem resetPassword_no_valid_token_fails_witness :
    resetPassword wExt wCfg [alice] "tok1" "newpw" =
      { store := [alice]
        nexts := [.errResp ⟨"Invalid token", some 400⟩, .typeError]
        resp := none, emailAttempts := [], lookedUp := true } :=
  resetPassword_no_valid_token_fails wExt wCfg [alice] "tok1" "newpw" (by decide)

/-- Claim C2: a login against an absent email and a login against a present
email with a non-matching password produce identical outcomes: the same
generic 401 "Invalid credentials" error, no response, no store change. -/
theorem login_enumeration_resistant (ext : Ext) (cfg : Cfg) (s : Store)
    (e1 p1 e2 p2 : String) (u : UserRec)
    (he1 : e1 ≠ "") (hp1 : p1 ≠ "") (he2 : e2 ≠ "") (hp2 : p2 ≠ "")
    (habsent : findOneByEmail s e1 = none)
    (hfound : findOneByEmail s e2 = some u)
    (hbad : ext.matchPassword p2 u.password = false) :
    login ext cfg s (some e1) (some p1) = login ext cfg s (some e2) (some p2) ∧
    login ext cfg s (some e1) (some p1) =
      { store := s, nexts := [.errResp ⟨"Invalid credentials", some 401⟩]
        resp := none, emailAttempts := [], lookedUp := true } := by
  have h1 : login ext cfg s (some e1) (some p1) =
      { store := s, nexts := [.errResp ⟨"Invalid credentials", some 401⟩]
        resp := none, emailAttempts := [], lookedUp := true } := by
    simp [login, truthy, he1, hp1, habsent]
  have h2 : login ext cfg s (some e2) (some p2) =
      { store := s, nexts := [.errResp ⟨"Invalid credentials", some 401⟩]
        resp := none, emailAttempts := [], lookedUp := true } := by
    simp [login, truthy, he2, hp2, hfound, hbad]
  exact ⟨h1.trans h2.symm, h1⟩

/-- Claim C2 witness: unknown email "b@x.com" and wrong password for
"a@x.com" are indistinguishable failures. -/
theorem login_enumeration_resistant_witness :
    login wExt wCfg [alice] (some "b@x.com") (some "pw") =
      login wExt wCfg [alice] (some "a@x.com") (some "wrong") ∧
    login wExt wCfg [alice] (some "b@x.com") (some "pw") =
      { store := [alice], nexts := [.errResp ⟨"Invalid credentials", some 401⟩]
        resp := none, emailAttempts := [], lookedUp := true } :=
  login_enumeration_resistant wExt wCfg [alice] "b@x.com" "pw" "a@x.com" "wrong"
    alice (by decide) (by decide) (by decide) (by decide)
    (by decide) (by decide) (by decide)

/-- Claim C5: `forgotPassword` on an email matching no stored user fails with
the 404 not-found error, leaves the store unchanged, and attempts no email
send. -/
theorem forgotPassword_unknown_email (ext : Ext) (s : Store)
    (e tok : String) (texp : Nat) (emailOk : Bool)
    (h : findOneByEmail s e = none) :
    forgotPassword ext s e tok texp emailOk =
      { store := s
        nexts := [.errResp ⟨"No user exists with that email", some 404⟩]
        resp := none, emailAttempts := [], lookedUp := true } := by
  rw [forgotPassword, h]

/-- Claim C5 witness: forgot-password for "b@x.com" against a store holding
only "a@x.com". -/
theorem forgotPassword_unknown_email_witness :
    forgotPassword wExt [alice] "b@x.com" "t2" 200 true =
      { store := [alice]
        nexts := [.errResp ⟨"No user exists with that email", some 404⟩]
        resp := none, emailAttempts := [], lookedUp := true } :=
  forgotPassword_unknown_email wExt [alice] "b@x.com" "t2" 200 true (by decide)

/-- Claim C6: `updatePassword` with a non-matching current password fails
with the "Password is incorrect" error (status 404, an AuthError per the
spec's taxonomy), leaves the store — hence the stored hash — unchanged, and
issues no session token. -/
theorem updatePassword_wrong_current (ext : Ext) (cfg : Cfg) (s : Store)
    (userId : Nat) (cur npw : String) (u : UserRec)
    (hfind : findById s userId = some u)
    (hbad : ext.matchPassword cur u.password = false) :
    updatePassword ext cfg s userId cur npw =
      { store := s, nexts := [.errResp ⟨"Password is incorrect", some 404⟩]
        resp := none, emailAttempts := [], lookedUp := true } ∧
    isAuthError ⟨"Password is incorrect", some 404⟩ := by
  refine ⟨?_, Or.inr rfl⟩
  rw [updatePassword, hfind]
  simp [hbad]

/-- Claim C6 witness: wrong current password for Alice's record. -/
theorem updatePassword_wrong_current_witness :
    updatePassword wExt wCfg [alice] 1 "wrong" "npw" =
      { store := [alice], nexts := [.errResp ⟨"Password is incorrect", some 404⟩]
        resp := none, emailAttempts := [], lookedUp := true } ∧
    isAuthError ⟨"Password is incorrect", some 404⟩ :=
  updatePassword_wrong_current wExt wCfg [alice] 1 "wrong" "npw" alice
    (by decide) (by decide)

/-- Claim C4: when the email send fails after a successful lookup,
`forgotPassword` clears both reset fields on the user, persists that
cleanup (the resulting store is the original with the user's reset fields
unset, and every record with the user's id has both fields cleared), fails
with the 500 delivery error, and sends no success response. -/
theorem forgotPassword_send_failure (ext : Ext) (s : Store)
    (e tok : String) (texp : Nat) (u : UserRec)
    (hfind : findOneByEmail s e = some u) :
    forgotPassword ext s e tok texp false =
      { store := saveUser s
          { u with passwordResetToken := none, passwordResetExpire := none }
        nexts := [.errResp ⟨"Email could not be sent", some 500⟩]
        resp := none, emailAttempts := [u.email], lookedUp := true } ∧
    (∀ v ∈ (forgotPassword ext s e tok texp false).store, v.uid = u.uid →
       v.passwordResetToken = none ∧ v.passwordResetExpire = none) := by
  have key : forgotPassword ext s e tok texp false =
      { store := saveUser s
          { u with passwordResetToken := none, passwordResetExpire := none }
        nexts := [.errResp ⟨"Email could not be sent", some 500⟩]
        resp := none, emailAttempts := [u.email], lookedUp := true } := by
    rw [forgotPassword, hfind]
    simp only [Bool.false_eq_true, if_false, getResetPasswordToken]
    rw [saveUser_saveUser s
      { u with passwordResetToken := some (ext.sha256Hex tok)
               passwordResetExpire := some texp }
      { u with passwordResetToken := none, passwordResetExpire := none } rfl]
  refine ⟨key, ?_⟩
  rw [key]
  intro v hv huid
  have := saveUser_mem_uid _ _ _ hv huid
  subst this
  exact ⟨rfl, rfl⟩

/-- Claim C4 witness: send failure for Alice's record clears both fields and
fails with the 500 error. -/
theorem forgotPassword_send_failure_witness :
    forgotPassword wExt [alice] "a@x.com" "t2" 200 false =
      { store := saveUser [alice]
          { alice with passwordResetToken := none, passwordResetExpire := none }
        nexts := [.errResp ⟨"Email could not be sent", some 500⟩]
        resp := none, emailAttempts := ["a@x.com"], lookedUp := true } ∧
    (∀ v ∈ (forgotPassword wExt [alice] "a@x.com" "t2" 200 false).store,
       v.uid = alice.uid →
       v.passwordResetToken = none ∧ v.passwordResetExpire = none) :=
  forgotPassword_send_failure wExt [alice] "a@x.com" "t2" 200 alice (by decide)

/-- Claim C9: `register` passes the body's role field unmodified to the
store's create operation — the argument object is exactly the four
destructured body fields — and the created record carries exactly the
caller-chosen role, whatever it is. -/
theorem register_role_passthrough (ext : Ext) (cfg : Cfg) (s : Store)
    (newId : Nat) (body : RegisterBody) :
    registerCreateArgs body =
      { name := body.name, email := body.email
        password := body.password, role := body.role } ∧
    (∀ u s1, createUser ext s newId (registerCreateArgs body) = some (u, s1) →
       u.role = body.role) := by
  refine ⟨rfl, ?_⟩
  intro u s1 h
  rw [createUser] at h
  cases hfe : findOneByEmail s (registerCreateArgs body).email with
  | some w => rw [hfe] at h; cases h
  | none =>
      rw [hfe] at h
      simp only [Option.some.injEq, Prod.mk.injEq] at h
      rw [← h.1]
      rfl

/-- Claim C9 witness: registering with the caller-chosen role "publisher"
creates a record whose role is "publisher". -/
theorem register_role_passthrough_witness :
    registerCreateArgs ⟨"Bob", "b@x.com", "pw", some "publisher"⟩ =
      { name := "Bob", email := "b@x.com", password := "pw"
        role := some "publisher" } ∧
    bob.role = some "publisher" :=
  ⟨(register_role_passthrough wExt wCfg [] 5
      ⟨"Bob", "b@x.com", "pw", some "publisher"⟩).1,
   (register_role_passthrough wExt wCfg [] 5
      ⟨"Bob", "b@x.com", "pw", some "publisher"⟩).2 bob [bob] (by decide)⟩

/-- Claim C10: `login` with a missing (or empty, hence falsy) email or
password fails before any store lookup with the message "Please provide
both email and password" carried by an error built without a status code;
every other error-response path in the file — forgot-password, reset-
password, update-password, and login with both fields present — supplies
an explicit status code. -/
theorem login_missing_fields_no_status (ext : Ext) (cfg : Cfg) (s : Store)
    (email password : Option String)
    (hmiss : truthy email = false ∨ truthy password = false) :
    login ext cfg s email password =
      { store := s
        nexts := [.errResp ⟨"Please provide both email and password", none⟩]
        resp := none, emailAttempts := [], lookedUp := false } ∧
    (∀ e tok texp emailOk er,
       NextErr.errResp er ∈ (forgotPassword ext s e tok texp emailOk).nexts →
       er.statusCode.isSome = true) ∧
    (∀ rt np er,
       NextErr.errResp er ∈ (resetPassword ext cfg s rt np).nexts →
       er.statusCode.isSome = true) ∧
    (∀ uid cur np er,
       NextErr.errResp er ∈ (updatePassword ext cfg s uid cur np).nexts →
       er.statusCode.isSome = true) ∧
    (∀ e p er, truthy e = true → truthy p = true →
       NextErr.errResp er ∈ (login ext cfg s e p).nexts →
       er.statusCode.isSome = true) := by
  refine ⟨?_, ?_, ?_, ?_, ?_⟩
  · rw [login]
    rcases hmiss with h | h <;> simp [h]
  · intro e tok texp emailOk er hmem
    rw [forgotPassword] at hmem
    cases hfe : findOneByEmail s e with
    | none =>
        rw [hfe] at hmem
        simp at hmem
        simp [hmem]
    | some u =>
        rw [hfe] at hmem
        cases emailOk with
        | true => simp at hmem
        | false =>
            simp at hmem
            simp [hmem]
  · intro rt np er hmem
    rw [resetPassword] at hmem
    cases hfr : findOneByResetToken s (ext.sha256Hex rt) cfg.now with
    | none =>
        rw [hfr] at hmem
        simp at hmem
        simp [hmem]
    | some u => rw [hfr] at hmem; simp at hmem
  · intro uid cur np er hmem
    rw [updatePassword] at hmem
    cases hfd : findById s uid with
    | none => rw [hfd] at hmem; simp at hmem
    | some u =>
        rw [hfd] at hmem
        by_cases hm : ext.matchPassword cur u.password = true
        · simp [hm] at hmem
        · have hm' : ext.matchPassword cur u.password = false :=
            Bool.eq_false_iff.mpr hm
          simp [hm'] at hmem
          simp [hmem]
  · intro e p er he hp hmem
    rw [login] at hmem
    simp only [he, hp, Bool.not_true, Bool.or_self, Bool.false_eq_true,
      if_false] at hmem
    cases hfe : findOneByEmail s (e.getD "") with
    | none =>
        rw [hfe] at hmem
        simp at hmem
        simp [hmem]
    | some u =>
        rw [hfe] at hmem
        by_cases hm : ext.matchPassword (p.getD "") u.password = true
        · simp [hm] at hmem
        · have hm' : ext.matchPassword (p.getD "") u.password = false :=
            Bool.eq_false_iff.mpr hm
          simp [hm'] at hmem
          simp [hmem]

/-- Claim C10 witness: a login request with an email but no password fails
with the status-less error before any lookup, and the other failure paths
carry status codes. -/
theorem login_missing_fields_no_status_witness :
    login wExt wCfg [alice] (some "a@x.com") none =
      { store := [alice]
        nexts := [.errResp ⟨"Please provide both email and password", none⟩]
        resp := none, emailAttempts := [], lookedUp := false } ∧
    (∀ e tok texp emailOk er,
       NextErr.errResp er ∈ (forgotPassword wExt [alice] e tok texp emailOk).nexts →
       er.statusCode.isSome = true) ∧
    (∀ rt np er,
       NextErr.errResp er ∈ (resetPassword wExt wCfg [alice] rt np).nexts →
       er.statusCode.isSome = true) ∧
    (∀ uid cur np er,
       NextErr.errResp er ∈ (updatePassword wExt wCfg [alice] uid cur np).nexts →
       er.statusCode.isSome = true) ∧
    (∀ e p er, truthy e = true → truthy p = true →
       NextErr.errResp er ∈ (login wExt wCfg [alice] e p).nexts →
       er.statusCode.isSome = true) :=
  login_missing_fields_no_status wExt wCfg [alice] (some "a@x.com") none
    (Or.inr (by decide))

/-- Claim C3: if `resetPassword` succeeds with a token whose stored hash
identifies a single user, the success state has that user's reset fields
cleared, so presenting the same token again fails (invalid-token error, no
response, no further store change): a consumed token permits at most one
password change. -/
theorem reset_token_single_use (ext : Ext) (cfg cfg2 : Cfg) (s : Store)
    (tok pw pw2 : String) (u : UserRec)
    (hfind : findOneByResetToken s (ext.sha256Hex tok) cfg.now = some u)
    (huniq : ∀ v ∈ s, v.passwordResetToken = some (ext.sha256Hex tok) →
       v.uid = u.uid) :
    (∃ t, (resetPassword ext cfg s tok pw).resp = some (.tokenOut t)) ∧
    resetPassword ext cfg2 (resetPassword ext cfg s tok pw).store tok pw2 =
      { store := (resetPassword ext cfg s tok pw).store
        nexts := [.errResp ⟨"Invalid token", some 400⟩, .typeError]
        resp := none, emailAttempts := [], lookedUp := true } := by
  have hstore : (resetPassword ext cfg s tok pw).store =
      saveUser s
        { u with password := ext.pwHash pw
                 passwordResetToken := none
                 passwordResetExpire := none } := by
    rw [resetPassword, hfind]
  refine ⟨⟨sendTokenResponse ext cfg
    { u with password := ext.pwHash pw
             passwordResetToken := none
             passwordResetExpire := none } 200, by rw [resetPassword, hfind]⟩, ?_⟩
  rw [hstore]
  apply resetPassword_not_found
  apply findOneByResetToken_none
  intro v hv hc
  unfold saveUser at hv
  rcases List.mem_map.mp hv with ⟨w, hw, hwe⟩
  by_cases hid : (w.uid ==
      ({ u with password := ext.pwHash pw
                passwordResetToken := none
                passwordResetExpire := none } : UserRec).uid) = true
  · rw [if_pos hid] at hwe
    rw [← hwe] at hc
    exact Option.noConfusion hc.1
  · rw [if_neg hid] at hwe
    rw [← hwe] at hc
    exact hid (by simp [huniq w hw hc.1])

/-- Claim C3 witness: Carol's valid token resets once; the immediate second
use of the same token fails. -/
theorem reset_token_single_use_witness :
    (∃ t, (resetPassword wExt wCfg [carol] "tok2" "np").resp =
       some (.tokenOut t)) ∧
    resetPassword wExt wCfg (resetPassword wExt wCfg [carol] "tok2" "np").store
        "tok2" "np2" =
      { store := (resetPassword wExt wCfg [carol] "tok2" "np").store
        nexts := [.errResp ⟨"Invalid token", some 400⟩, .typeError]
        resp := none, emailAttempts := [], lookedUp := true } :=
  reset_token_single_use wExt wCfg wCfg [carol] "tok2" "np" "np2" carol
    (by decide) (by decide)

/-- Claim C8: every session token any of the four issuing handlers sends is
a status-200 token response whose body has the success flag and whose
`token` cookie is HTTP-only, secure exactly in production, and expires
`JWT_COOKIE_EXPIRE` days after issuance. -/
theorem session_token_issuance (ext : Ext) (cfg : Cfg) (s : Store)
    (newId : Nat) (body : RegisterBody) (email password : Option String)
    (rtok npw : String) (userId : Nat) (cur npw2 : String) :
    (∀ t, (register ext cfg s newId body).resp = some (.tokenOut t) →
       t.status = 200 ∧ goodTokenResp cfg t) ∧
    (∀ t, (login ext cfg s email password).resp = some (.tokenOut t) →
       t.status = 200 ∧ goodTokenResp cfg t) ∧
    (∀ t, (resetPassword ext cfg s rtok npw).resp = some (.tokenOut t) →
       t.status = 200 ∧ goodTokenResp cfg t) ∧
    (∀ t, (updatePassword ext cfg s userId cur npw2).resp = some (.tokenOut t) →
       t.status = 200 ∧ goodTokenResp cfg t) := by
  refine ⟨?_, ?_, ?_, ?_⟩
  · intro t ht
    rw [register] at ht
    cases hc : createUser ext s newId (registerCreateArgs body) with
    | none => rw [hc] at ht; simp at ht
    | some p =>
        obtain ⟨u1, s1⟩ := p
        rw [hc] at ht
        simp at ht
        rw [← ht]
        exact ⟨rfl, goodTokenResp_sendTokenResponse ext cfg u1 200⟩
  · intro t ht
    rw [login] at ht
    by_cases hcond : (!truthy email || !truthy password) = true
    · rw [if_pos hcond] at ht; simp at ht
    · rw [if_neg hcond] at ht
      cases hfe : findOneByEmail s (email.getD "") with
      | none => rw [hfe] at ht; simp at ht
      | some u =>
          rw [hfe] at ht
          cases hm : ext.matchPassword (password.getD "") u.password with
          | true =>
              simp [hm] at ht
              rw [← ht]
              exact ⟨rfl, goodTokenResp_sendTokenResponse ext cfg u 200⟩
          | false => simp [hm] at ht
  · intro t ht
    rw [resetPassword] at ht
    cases hfr : findOneByResetToken s (ext.sha256Hex rtok) cfg.now with
    | none => rw [hfr] at ht; simp at ht
    | some u =>
        rw [hfr] at ht
        simp at ht
        rw [← ht]
        refine ⟨rfl, goodTokenResp_sendTokenResponse ext cfg _ 200⟩
  · intro t ht
    rw [updatePassword] at ht
    cases hfd : findById s userId with
    | none => rw [hfd] at ht; simp at ht
    | some u =>
        rw [hfd] at ht
        cases hm : ext.matchPassword cur u.password with
        | false => simp [hm] at ht
        | true =>
            simp [hm] at ht
            rw [← ht]
            refine ⟨rfl, goodTokenResp_sendTokenResponse ext cfg _ 200⟩

/-- Claim C8 witness: the token response from Alice's successful login is
status 200 with the required body and cookie attributes. -/
theorem session_token_issuance_witness :
    (sendTokenResponse wExt wCfg alice 200).status = 200 ∧
    goodTokenResp wCfg (sendTokenResponse wExt wCfg alice 200) :=
  (session_token_issuance wExt wCfg [alice] 5
      ⟨"Bob", "b@x.com", "pw", some "publisher"⟩
      (some "a@x.com") (some "pw123") "x" "y" 1 "c" "d").2.1
    (sendTokenResponse wExt wCfg alice 200) (by decide)

/-- Claim C7: each handler operation preserves the reset-field invariant —
token hash and expiry set or cleared together, any set expiry strictly in
the future — and a new forgot-password request overwrites the user's prior
reset pair with the fresh hash and expiry. -/
theorem handlers_preserve_reset_invariant (ext : Ext) (cfg : Cfg) (s : Store)
    (newId : Nat) (body : RegisterBody) (email password : Option String)
    (reqUser : UserRec) (e tok : String) (tokenExpire : Nat) (emailOk : Bool)
    (rtok npw : String) (uid1 : Nat) (nm em : String)
    (uid2 : Nat) (cur npw2 : String)
    (hinv : storeInv cfg.now s) (hexp : cfg.now < tokenExpire) :
    storeInv cfg.now (register ext cfg s newId body).store ∧
    storeInv cfg.now (login ext cfg s email password).store ∧
    storeInv cfg.now (getMe s reqUser).store ∧
    storeInv cfg.now (logout s).store ∧
    storeInv cfg.now (forgotPassword ext s e tok tokenExpire emailOk).store ∧
    storeInv cfg.now (resetPassword ext cfg s rtok npw).store ∧
    storeInv cfg.now (updateDetails s uid1 nm em).store ∧
    storeInv cfg.now (updatePassword ext cfg s uid2 cur npw2).store ∧
    (∀ u, findOneByEmail s e = some u →
       ∀ v ∈ (forgotPassword ext s e tok tokenExpire true).store,
         v.uid = u.uid →
         v.passwordResetToken = some (ext.sha256Hex tok) ∧
         v.passwordResetExpire = some tokenExpire) := by
  have hfresh : ∀ u : UserRec,
      userInv cfg.now (getResetPasswordToken ext u tok tokenExpire) := by
    intro u
    refine ⟨by simp [getResetPasswordToken], ?_⟩
    simp only [getResetPasswordToken, resetExpireOk]
    exact decide_eq_true hexp
  have hcleared : ∀ (u : UserRec) (pw : String),
      userInv cfg.now
        { u with password := pw
                 passwordResetToken := none, passwordResetExpire := none } :=
    fun u pw => ⟨by simp, rfl⟩
  refine ⟨?_, ?_, ?_, ?_, ?_, ?_, ?_, ?_, ?_⟩
  · rw [register]
    cases hc : createUser ext s newId (registerCreateArgs body) with
    | none => exact hinv
    | some p =>
        obtain ⟨u1, s1⟩ := p
        rw [createUser] at hc
        cases hfe : findOneByEmail s (registerCreateArgs body).email with
        | some w => rw [hfe] at hc; cases hc
        | none =>
            rw [hfe] at hc
            simp only [Option.some.injEq, Prod.mk.injEq] at hc
            intro v hv
            rw [← hc.2] at hv
            rcases List.mem_cons.mp hv with h | h
            · rw [h]
              exact ⟨by simp, rfl⟩
            · exact hinv v h
  · rw [login]
    cases hcond : (!truthy email || !truthy password) with
    | true => exact hinv
    | false =>
        cases hfe : findOneByEmail s (email.getD "") with
        | none => exact hinv
        | some u =>
            cases hm : ext.matchPassword (password.getD "") u.password with
            | true => simpa [hm] using hinv
            | false => simpa [hm] using hinv
  · exact hinv
  · exact hinv
  · rw [forgotPassword]
    cases hfe : findOneByEmail s e with
    | none => exact hinv
    | some u =>
        cases emailOk with
        | true =>
            exact storeInv_saveUser cfg.now s _ hinv (hfresh u)
        | false =>
            exact storeInv_saveUser cfg.now _ _
              (storeInv_saveUser cfg.now s _ hinv (hfresh u))
              ⟨by simp [getResetPasswordToken], rfl⟩
  · rw [resetPassword]
    cases hfr : findOneByResetToken s (ext.sha256Hex rtok) cfg.now with
    | none => exact hinv
    | some u => exact storeInv_saveUser cfg.now s _ hinv (hcleared u _)
  · rw [updateDetails]
    cases hfd : findById s uid1 with
    | none => exact hinv
    | some u =>
        have hu : userInv cfg.now u :=
          hinv u (List.mem_of_find?_eq_some hfd)
        exact storeInv_saveUser cfg.now s _ hinv hu
  · rw [updatePassword]
    cases hfd : findById s uid2 with
    | none => exact hinv
    | some u =>
        cases hm : ext.matchPassword cur u.password with
        | false => simpa [hm] using hinv
        | true =>
            have hu : userInv cfg.now u :=
              hinv u (List.mem_of_find?_eq_some hfd)
            simp only [hm]
            simp only [Bool.not_true, Bool.false_eq_true, if_false]
            exact storeInv_saveUser cfg.now s _ hinv ⟨hu.1, hu.2⟩
  · intro u hfe v hv hvid
    rw [forgotPassword, hfe] at hv
    simp only [if_pos] at hv
    have hveq := saveUser_mem_uid _ _ _ hv hvid
    rw [hveq]
    exact ⟨rfl, rfl⟩

/-- Claim C7 witness: with Carol's store (valid pending token at time 100)
all eight operations preserve the invariant, and a fresh forgot-password
overwrites her pair. -/
theorem handlers_preserve_reset_invariant_witness :
    storeInv wCfg.now
      (register wExt wCfg [carol] 5 ⟨"Bob", "b@x.com", "pw", some "pub"⟩).store ∧
    storeInv wCfg.now
      (login wExt wCfg [carol] (some "c@x.com") (some "pwc")).store ∧
    storeInv wCfg.now (getMe [carol] carol).store ∧
    storeInv wCfg.now (logout [carol]).store ∧
    storeInv wCfg.now (forgotPassword wExt [carol] "c@x.com" "t9" 300 true).store ∧
    storeInv wCfg.now (resetPassword wExt wCfg [carol] "tok2" "np").store ∧
    storeInv wCfg.now (updateDetails [carol] 2 "C" "c2@x.com").store ∧
    storeInv wCfg.now (updatePassword wExt wCfg [carol] 2 "pwc" "np2").store ∧
    (∀ u, findOneByEmail [carol] "c@x.com" = some u →
       ∀ v ∈ (forgotPassword wExt [carol] "c@x.com" "t9" 300 true).store,
         v.uid = u.uid →
         v.passwordResetToken = some (wExt.sha256Hex "t9") ∧
         v.passwordResetExpire = some 300) :=
  handlers_preserve_reset_invariant wExt wCfg [carol] 5
    ⟨"Bob", "b@x.com", "pw", some "pub"⟩ (some "c@x.com") (some "pwc")
    carol "c@x.com" "t9" 300 true "tok2" "np" 2 "C" "c2@x.com" 2 "pwc" "np2"
    (by decide) (by decide)

end AuthApi
